import Mathlib

/-!
Verification development for the tabloid-backend service: a shallow
embedding of its authentication and authorization core (session-token
codec, OAuth exchange handlers, authorization guard, and the user/post
route handlers) together with theorems about the embedded code.

Sources embedded:
- src/middleware/auth.ts  (authenticate, requireAdmin)
- src/routes/oauth.ts     (two handler variants: the role-preserving
  one and the findOneAndUpdate upsert one)
- src/routes/user.ts      (DELETE /user cascading delete)
- src/routes/post.ts      (PUT /post and DELETE /post owner-or-admin gate)
-/

namespace Tabloid

/-- Payload of the session JWT, from the JwtPayload interface in
src/middleware/auth.ts: userId, email, role. -/
structure JwtPayload where
  userId : String
  email : String
  role : String
deriving DecidableEq, Repr

/-- Lifetime in seconds of a session token: jwt.sign is called with
expiresIn set to 7 days in src/routes/oauth.ts. -/
def sevenDays : Nat := 7 * 24 * 60 * 60

/-- A structurally well-formed JWT. The HMAC signature is idealized as
the exact data it authenticates paired with the signing secret: a
signature check succeeds exactly when the token was produced by signing
this payload with this secret, which is the guarantee jsonwebtoken
provides under an unforgeable MAC. -/
structure Jwt where
  payload : JwtPayload
  iat : Nat
  exp : Nat
  sig : Nat × JwtPayload × Nat × Nat
deriving DecidableEq, Repr

/-- Embedding of jwt.sign with expiresIn of 7 days
(src/routes/oauth.ts): embeds the payload, issued-at and expiry, and
signs them with the server secret. -/
def jwtSign (secret : Nat) (p : JwtPayload) (now : Nat) : Jwt :=
  { payload := p
    iat := now
    exp := now + sevenDays
    sig := (secret, p, now, now + sevenDays) }

/-- Embedding of jwt.verify (used in src/middleware/auth.ts): succeeds
and returns the embedded payload exactly when the signature matches the
secret and the token is not yet expired; any failure is collapsed into
none, mirroring the single catch branch of the middleware. -/
def jwtVerify (secret : Nat) (t : Jwt) (now : Nat) : Option JwtPayload :=
  if t.sig = (secret, t.payload, t.iat, t.exp) ∧ now < t.exp then some t.payload else none

/-- A raw bearer token string as received over HTTP: either garbage
that does not decode as a JWT at all, or a structurally well-formed
JWT (whose signature may still be wrong). -/
inductive RawToken where
  | malformed (s : String)
  | wellFormed (t : Jwt)
deriving DecidableEq, Repr

/-- jwt.verify applied to a raw token: a malformed token always fails;
a well-formed one is checked by jwtVerify. -/
def verifyRaw (secret now : Nat) : RawToken → Option JwtPayload
  | .malformed _ => none
  | .wellFormed t => jwtVerify secret t now

/-- An HTTP response as produced by res.status(n).json with a message
field. -/
structure HttpResponse where
  status : Nat
  message : String
deriving DecidableEq, Repr

/-- Token selection in src/middleware/auth.ts line 19: the cookie token
if present, otherwise the bearer token from the Authorization header. -/
def pickToken (cookieToken bearerToken : Option RawToken) : Option RawToken :=
  match cookieToken with
  | some t => some t
  | none => bearerToken

/-- Embedding of the authenticate middleware (src/middleware/auth.ts
lines 18-32): 401 Authentication required when no token is present,
401 Invalid token when jwt.verify throws, otherwise the decoded payload
is attached to the request. -/
def authenticate (secret now : Nat) (cookieToken bearerToken : Option RawToken) :
    Except HttpResponse JwtPayload :=
  match pickToken cookieToken bearerToken with
  | none => .error ⟨401, "Authentication required"⟩
  | some raw =>
    match verifyRaw secret now raw with
    | none => .error ⟨401, "Invalid token"⟩
    | some p => .ok p

/-- Embedding of the requireAdmin middleware (src/middleware/auth.ts
lines 34-39): 403 unless the attached role is admin. -/
def requireAdmin (p : JwtPayload) : Option HttpResponse :=
  if p.role ≠ "admin" then some ⟨403, "Admin access required"⟩ else none

/-- A stored user document, from the mongoose schema in
src/models/user.ts plus the implicit Mongo document id (objectId), which
the findOneAndUpdate oauth variant signs into the token. -/
structure Identity where
  objectId : Nat
  googleId : String
  name : String
  email : String
  picture : String
  role : String
deriving DecidableEq, Repr

/-- A stored post document as the route handlers in src/routes/post.ts
and src/routes/user.ts use it: id, author (the google id of the owner),
title and content. -/
structure Post where
  id : String
  author : String
  title : String
  content : String
deriving DecidableEq, Repr

/-- The document store: users and posts collections, plus the counter
from which the store mints fresh document ids. -/
structure Store where
  users : List Identity
  posts : List Post
  nextObjectId : Nat
deriving DecidableEq, Repr

/-- The payload of a verified Google id_token as read by
ticket.getPayload() in src/routes/oauth.ts: sub, email, name required by
the handler, picture optional. -/
structure GooglePayload where
  sub : Option String
  email : Option String
  name : Option String
  picture : Option String
deriving DecidableEq, Repr

/-- Outcome of the oauth route: a JSON error response, or a 302 redirect
to the frontend with the session token set as an httpOnly cookie. -/
inductive OAuthResponse where
  | error (status : Nat) (message : String)
  | redirectWithCookie (token : Jwt)
deriving DecidableEq, Repr

/-- The session token carried by an oauth route outcome, when one was
issued. -/
def issuedToken : OAuthResponse → Option Jwt
  | .error _ _ => none
  | .redirectWithCookie t => some t

/-- Embedding of the role-preserving oauth handler
(src/routes/oauth.ts lines 11-73). The provider argument stands for the
code-for-id_token exchange plus assertion verification: none models the
no-id_token branch. On an existing user only name, email and picture are
overwritten; on a miss a user is created with role user. The token signs
googleId, email and role. -/
def oauthGet (secret now : Nat) (provider : String → Option GooglePayload)
    (code : Option String) (store : Store) : OAuthResponse × Store :=
  match code with
  | none => (.error 400 "Missing code", store)
  | some c =>
    match provider c with
    | none => (.error 400 "No id_token returned", store)
    | some p =>
      match p.sub, p.email, p.name with
      | some sub, some email, some name =>
        match store.users.find? (fun u => u.googleId == sub) with
        | some u =>
          let u2 := { u with name := name, email := email, picture := p.picture.getD "" }
          let store2 := { store with
            users := store.users.map (fun v => if v.googleId == sub then u2 else v) }
          (.redirectWithCookie (jwtSign secret ⟨u2.googleId, u2.email, u2.role⟩ now), store2)
        | none =>
          let u2 : Identity :=
            ⟨store.nextObjectId, sub, name, email, p.picture.getD "", "user"⟩
          let store2 := { store with
            users := store.users ++ [u2]
            nextObjectId := store.nextObjectId + 1 }
          (.redirectWithCookie (jwtSign secret ⟨u2.googleId, u2.email, u2.role⟩ now), store2)
      | _, _, _ => (.error 400 "Incomplete Google profile: missing sub/email/name", store)

/-- Embedding of the findOneAndUpdate oauth handler variant
(src/routes/oauth.ts, second variant, lines 94-146 of the combined
file): an upsert keyed by googleId whose update document sets name,
email, picture and also role to user on every exchange; the token signs
the document id (user id dot toString), not the google id. -/
def oauthGetUpsert (secret now : Nat) (provider : String → Option GooglePayload)
    (code : Option String) (store : Store) : OAuthResponse × Store :=
  match code with
  | none => (.error 400 "Missing code", store)
  | some c =>
    match provider c with
    | none => (.error 400 "No id_token returned", store)
    | some p =>
      match p.sub, p.email, p.name with
      | some sub, some email, some name =>
        match store.users.find? (fun u => u.googleId == sub) with
        | some u =>
          let u2 := { u with
            name := name, email := email, picture := p.picture.getD "", role := "user" }
          let store2 := { store with
            users := store.users.map (fun v => if v.googleId == sub then u2 else v) }
          (.redirectWithCookie
            (jwtSign secret ⟨toString u2.objectId, u2.email, u2.role⟩ now), store2)
        | none =>
          let u2 : Identity :=
            ⟨store.nextObjectId, sub, name, email, p.picture.getD "", "user"⟩
          let store2 := { store with
            users := store.users ++ [u2]
            nextObjectId := store.nextObjectId + 1 }
          (.redirectWithCookie
            (jwtSign secret ⟨toString u2.objectId, u2.email, u2.role⟩ now), store2)
      | _, _, _ => (.error 400 "Incomplete Google profile: missing sub/email/name", store)

/-- Embedding of the PUT /post handler body (src/routes/post.ts lines
345-372), after authenticate has attached the payload p: 400 without a
post id, 404 when the post is missing, 403 when the caller is neither
the author nor an admin, otherwise the provided fields are updated. -/
def putPost (p : JwtPayload) (postId : Option String) (title content : Option String)
    (store : Store) : HttpResponse × Store :=
  match postId with
  | none => (⟨400, "Post ID is required"⟩, store)
  | some pid =>
    match store.posts.find? (fun q => q.id == pid) with
    | none => (⟨404, "Post not found"⟩, store)
    | some post =>
      if post.author ≠ p.userId ∧ p.role ≠ "admin" then
        (⟨403, "Not authorized to edit this post"⟩, store)
      else
        let post2 := { post with
          title := title.getD post.title, content := content.getD post.content }
        (⟨200, "Post updated successfully"⟩,
          { store with posts := store.posts.map (fun q => if q.id == pid then post2 else q) })

/-- Embedding of the DELETE /post handler body (src/routes/post.ts lines
434-457), after authenticate: same gate as putPost, then
findByIdAndDelete removes the post. -/
def deletePost (p : JwtPayload) (postId : Option String) (store : Store) :
    HttpResponse × Store :=
  match postId with
  | none => (⟨400, "Post ID is required"⟩, store)
  | some pid =>
    match store.posts.find? (fun q => q.id == pid) with
    | none => (⟨404, "Post not found"⟩, store)
    | some post =>
      if post.author ≠ p.userId ∧ p.role ≠ "admin" then
        (⟨403, "Not authorized to delete this post"⟩, store)
      else
        (⟨200, "Post deleted successfully"⟩,
          { store with posts := store.posts.filter (fun q => !(q.id == pid)) })

/-- A write issued against the store by the DELETE /user handler, in
program order; used to state in which order the two deletes happen. -/
inductive StoreOp where
  | deletePostsByAuthor (author : String)
  | deleteUserByGoogleId (id : String)
deriving DecidableEq, Repr

/-- Embedding of the DELETE /user handler body (src/routes/user.ts lines
233-252), after authenticate and requireAdmin: 400 without an id; then
Post.deleteMany removes every post of that author FIRST, then
User.findOneAndDelete removes the user, and only the result of the
latter decides between 404 and the success message. The third component
records the store writes in program order. -/
def deleteUserCore (userId : Option String) (store : Store) :
    HttpResponse × Store × List StoreOp :=
  match userId with
  | none => (⟨400, "User ID is required"⟩, store, [])
  | some uid =>
    let store1 := { store with posts := store.posts.filter (fun q => !(q.author == uid)) }
    match store1.users.find? (fun u => u.googleId == uid) with
    | none =>
      (⟨404, "User not found"⟩, store1,
        [.deletePostsByAuthor uid, .deleteUserByGoogleId uid])
    | some _ =>
      (⟨200, "User and all posts deleted successfully"⟩,
        { store1 with users := store1.users.filter (fun u => !(u.googleId == uid)) },
        [.deletePostsByAuthor uid, .deleteUserByGoogleId uid])

/-- The full DELETE /user route: the router composes authenticate, then
requireAdmin, then the handler body; a middleware failure answers
immediately, before the handler touches the store. -/
def deleteUserRoute (secret now : Nat) (cookieToken bearerToken : Option RawToken)
    (userId : Option String) (store : Store) : HttpResponse × Store × List StoreOp :=
  match authenticate secret now cookieToken bearerToken with
  | .error r => (r, store, [])
  | .ok p =>
    match requireAdmin p with
    | some r => (r, store, [])
    | none => deleteUserCore userId store

end Tabloid

namespace Tabloid

/-- C2: for every payload and every verification time strictly before the
7-day expiry, verifying a token issued with the same secret succeeds and
returns exactly the payload supplied at issuance. -/
theorem jwt_roundtrip (secret : Nat) (p : JwtPayload) (t0 t : Nat)
    (h : t < t0 + sevenDays) :
    jwtVerify secret (jwtSign secret p t0) t = some p := by
  simp [jwtVerify, jwtSign, h]

theorem jwt_roundtrip_witness :
    (101 : Nat) < 100 + sevenDays ∧
    jwtVerify 5 (jwtSign 5 ⟨"g1", "a@b.com", "user"⟩ 100) 101 =
      some ⟨"g1", "a@b.com", "user"⟩ := by
  refine ⟨by norm_num [sevenDays], ?_⟩
  exact jwt_roundtrip 5 ⟨"g1", "a@b.com", "user"⟩ 100 101 (by norm_num [sevenDays])

/-- C4: a token whose expiry has passed fails verification even when its
signature is genuine under the server secret, and the guard answers
401 Invalid token. -/
theorem expired_token_rejected (secret : Nat) (t : Jwt) (now : Nat)
    (hsig : t.sig = (secret, t.payload, t.iat, t.exp)) (hexp : t.exp ≤ now) :
    jwtVerify secret t now = none ∧
    authenticate secret now none (some (.wellFormed t)) =
      .error ⟨401, "Invalid token"⟩ := by
  have hv : jwtVerify secret t now = none := by
    simp [jwtVerify, hsig]
    omega
  refine ⟨hv, ?_⟩
  simp [authenticate, pickToken, verifyRaw, hv]

theorem expired_token_rejected_witness :
    (jwtSign 5 ⟨"g1", "a@b.com", "user"⟩ 0).sig =
      (5, (jwtSign 5 ⟨"g1", "a@b.com", "user"⟩ 0).payload,
        (jwtSign 5 ⟨"g1", "a@b.com", "user"⟩ 0).iat,
        (jwtSign 5 ⟨"g1", "a@b.com", "user"⟩ 0).exp) ∧
    (jwtSign 5 ⟨"g1", "a@b.com", "user"⟩ 0).exp ≤ sevenDays ∧
    jwtVerify 5 (jwtSign 5 ⟨"g1", "a@b.com", "user"⟩ 0) sevenDays = none := by
  refine ⟨rfl, by simp [jwtSign], ?_⟩
  exact (expired_token_rejected 5 (jwtSign 5 ⟨"g1", "a@b.com", "user"⟩ 0) sevenDays
    rfl (by simp [jwtSign])).1

/-- C3: on both post update and post delete, with the post found in the
store, the response is 403 Forbidden exactly when the caller is neither
the author of the post nor an admin; the author and any admin get 200. -/
theorem owner_or_admin_gate (p : JwtPayload) (pid : String) (post : Post)
    (title content : Option String) (store : Store)
    (hfind : store.posts.find? (fun q => q.id == pid) = some post) :
    (putPost p (some pid) title content store).1.status =
      (if post.author ≠ p.userId ∧ p.role ≠ "admin" then 403 else 200) ∧
    (deletePost p (some pid) store).1.status =
      (if post.author ≠ p.userId ∧ p.role ≠ "admin" then 403 else 200) := by
  constructor <;> (simp only [putPost, deletePost, hfind]; split <;> simp_all)

theorem owner_or_admin_gate_witness :
    ((⟨[], [⟨"p1", "g1", "T", "C"⟩], 0⟩ : Store).posts.find?
        (fun q => q.id == "p1") = some ⟨"p1", "g1", "T", "C"⟩) ∧
    (putPost ⟨"g2", "e", "user"⟩ (some "p1") none none
        ⟨[], [⟨"p1", "g1", "T", "C"⟩], 0⟩).1.status =
      (if ("g1" : String) ≠ "g2" ∧ ("user" : String) ≠ "admin" then 403 else 200) := by
  refine ⟨rfl, ?_⟩
  exact (owner_or_admin_gate ⟨"g2", "e", "user"⟩ "p1" ⟨"p1", "g1", "T", "C"⟩
    none none ⟨[], [⟨"p1", "g1", "T", "C"⟩], 0⟩ rfl).1

/-- C9: any two tokens that fail verification, whatever the cause
(malformed, expired or bad signature), draw the same observable response
from the guard: 401 Invalid token, so the caller cannot tell the causes
apart. -/
theorem invalid_tokens_indistinguishable (secret now : Nat) (r1 r2 : RawToken)
    (h1 : verifyRaw secret now r1 = none) (h2 : verifyRaw secret now r2 = none) :
    authenticate secret now none (some r1) = authenticate secret now none (some r2) ∧
    authenticate secret now none (some r1) = .error ⟨401, "Invalid token"⟩ := by
  simp [authenticate, pickToken, h1, h2]

theorem invalid_tokens_indistinguishable_witness :
    verifyRaw 5 1 (.malformed "garbage") = none ∧
    verifyRaw 5 1 (.wellFormed ⟨⟨"g1", "a@b.com", "user"⟩, 0, sevenDays,
      (6, ⟨"g1", "a@b.com", "user"⟩, 0, sevenDays)⟩) = none ∧
    authenticate 5 1 none (some (.malformed "garbage")) =
      authenticate 5 1 none (some (.wellFormed ⟨⟨"g1", "a@b.com", "user"⟩, 0, sevenDays,
        (6, ⟨"g1", "a@b.com", "user"⟩, 0, sevenDays)⟩)) := by
  refine ⟨rfl, by decide, ?_⟩
  exact (invalid_tokens_indistinguishable 5 1 (.malformed "garbage")
    (.wellFormed ⟨⟨"g1", "a@b.com", "user"⟩, 0, sevenDays,
      (6, ⟨"g1", "a@b.com", "user"⟩, 0, sevenDays)⟩) rfl (by decide)).1

/-- C6: a request to the oauth route without the code query parameter
answers 400 Missing code and returns the store exactly as it was — no
identity is created or updated — in both handler variants. -/
theorem missing_code_no_store_write (secret now : Nat)
    (provider : String → Option GooglePayload) (store : Store) :
    oauthGet secret now provider none store = (.error 400 "Missing code", store) ∧
    oauthGetUpsert secret now provider none store = (.error 400 "Missing code", store) :=
  ⟨rfl, rfl⟩

/-- Store holding one existing identity g1 whose role is admin, used to
exercise the oauth exchange against an admin account. -/
def adminStore : Store :=
  ⟨[⟨7, "g1", "Old Name", "old@example.com", "", "admin"⟩], [], 8⟩

/-- Provider behaviour for the concrete exchanges below: code ABC is
accepted and yields the assertion with sub g1, email a@b.com, name
Alice; every other code yields no id_token. -/
def googleProviderABC : String → Option GooglePayload :=
  fun c => if c == "ABC" then some ⟨some "g1", some "a@b.com", some "Alice", none⟩ else none

/-- C1 is falsified by the findOneAndUpdate oauth variant: exchanging a
code for the existing admin identity g1 leaves its role as user there,
while the role-preserving variant keeps it admin on the same input. -/
theorem oauth_upsert_resets_admin_role :
    (((oauthGetUpsert 5 100 googleProviderABC (some "ABC") adminStore).2.users.find?
        (fun u => u.googleId == "g1")).map Identity.role = some "user") ∧
    (((oauthGet 5 100 googleProviderABC (some "ABC") adminStore).2.users.find?
        (fun u => u.googleId == "g1")).map Identity.role = some "admin") := by
  constructor <;> rfl

/-- Store with no users and no posts, document counter at zero. -/
def emptyStore : Store := ⟨[], [], 0⟩

/-- C5 as stated is false on the findOneAndUpdate oauth variant: for a
fresh exchange with sub g1 it issues a token whose subject is the
store-internal document id (here the string 0), not the external id
g1. -/
theorem oauth_upsert_subject_is_internal_id :
    ((issuedToken (oauthGetUpsert 5 100 googleProviderABC (some "ABC") emptyStore).1).map
        (fun t => t.payload.userId) = some "0") ∧ ("0" : String) ≠ "g1" := by
  constructor
  · rfl
  · decide

/-- C5 (amended): a successful exchange with no existing identity for
the provider sub creates, in both variants, an identity with that
external id, the provider email and name and role user; the issued token
carries the provider email and role user, with subject equal to the
external id in the role-preserving variant and equal to the
store-internal document id in the findOneAndUpdate variant. -/
theorem oauth_new_identity (secret now : Nat) (provider : String → Option GooglePayload)
    (c sub email name : String) (pic : Option String) (store : Store)
    (hp : provider c = some ⟨some sub, some email, some name, pic⟩)
    (hnew : store.users.find? (fun u => u.googleId == sub) = none) :
    ((oauthGet secret now provider (some c) store).2.users =
      store.users ++ [⟨store.nextObjectId, sub, name, email, pic.getD "", "user"⟩] ∧
     issuedToken (oauthGet secret now provider (some c) store).1 =
      some (jwtSign secret ⟨sub, email, "user"⟩ now)) ∧
    ((oauthGetUpsert secret now provider (some c) store).2.users =
      store.users ++ [⟨store.nextObjectId, sub, name, email, pic.getD "", "user"⟩] ∧
     issuedToken (oauthGetUpsert secret now provider (some c) store).1 =
      some (jwtSign secret ⟨toString store.nextObjectId, email, "user"⟩ now)) := by
  simp [oauthGet, oauthGetUpsert, hp, hnew, issuedToken]

theorem oauth_new_identity_witness :
    googleProviderABC "ABC" = some ⟨some "g1", some "a@b.com", some "Alice", none⟩ ∧
    emptyStore.users.find? (fun u => u.googleId == "g1") = none ∧
    issuedToken (oauthGet 5 100 googleProviderABC (some "ABC") emptyStore).1 =
      some (jwtSign 5 ⟨"g1", "a@b.com", "user"⟩ 100) := by
  refine ⟨rfl, rfl, ?_⟩
  exact (oauth_new_identity 5 100 googleProviderABC "ABC" "g1" "a@b.com" "Alice"
    none emptyStore rfl rfl).1.2

/-- Filtering a list by a predicate after having kept only the elements
refuting it leaves nothing. -/
theorem filter_not_filter_self {α : Type} (l : List α) (f : α → Bool) :
    (l.filter (fun a => !(f a))).filter f = [] := by
  rw [List.filter_eq_nil_iff]
  intro a ha
  have h2 := (List.mem_filter.mp ha).2
  simp only [Bool.not_eq_true'] at h2
  simp [h2]

/-- C8: on the protected DELETE /user route, a failing authenticate step
terminates the request with its 401 response before the role check or
any store access: the store comes back untouched and no store operation
is issued, so authorize only ever runs after authenticate succeeded. -/
theorem authenticate_failure_short_circuits (secret now : Nat)
    (cookieToken bearerToken : Option RawToken) (userId : Option String)
    (store : Store) (r : HttpResponse)
    (hfail : authenticate secret now cookieToken bearerToken = .error r) :
    deleteUserRoute secret now cookieToken bearerToken userId store = (r, store, []) ∧
    r.status = 401 := by
  constructor
  · simp [deleteUserRoute, hfail]
  · unfold authenticate at hfail
    split at hfail
    · injection hfail with h
      subst h
      rfl
    · split at hfail
      · injection hfail with h
        subst h
        rfl
      · exact Except.noConfusion hfail

theorem authenticate_failure_short_circuits_witness :
    authenticate 5 0 none none = .error ⟨401, "Authentication required"⟩ ∧
    deleteUserRoute 5 0 none none (some "g1") emptyStore =
      (⟨401, "Authentication required"⟩, emptyStore, []) := by
  refine ⟨rfl, ?_⟩
  exact (authenticate_failure_short_circuits 5 0 none none (some "g1") emptyStore
    ⟨401, "Authentication required"⟩ rfl).1

/-- C7: a DELETE /user by an authenticated admin for an existing
identity removes every post whose author is that identity and the
identity itself, answers with the success message, and issues the posts
delete before the identity delete. -/
theorem admin_delete_user_cascades (secret now : Nat) (t : Jwt) (uid : String)
    (store : Store)
    (hsig : t.sig = (secret, t.payload, t.iat, t.exp))
    (hexp : now < t.exp)
    (hrole : t.payload.role = "admin")
    (hexists : ∃ u ∈ store.users, u.googleId = uid) :
    (deleteUserRoute secret now (some (.wellFormed t)) none (some uid) store).1 =
      ⟨200, "User and all posts deleted successfully"⟩ ∧
    (deleteUserRoute secret now (some (.wellFormed t)) none
      (some uid) store).2.1.posts.filter (fun q => q.author == uid) = [] ∧
    (deleteUserRoute secret now (some (.wellFormed t)) none
      (some uid) store).2.1.users.filter (fun u => u.googleId == uid) = [] ∧
    (deleteUserRoute secret now (some (.wellFormed t)) none (some uid) store).2.2 =
      [.deletePostsByAuthor uid, .deleteUserByGoogleId uid] := by
  obtain ⟨u, hu, hgid⟩ := hexists
  have hfindSome : (store.users.find? (fun v => v.googleId == uid)).isSome :=
    List.find?_isSome.mpr ⟨u, hu, by simp [hgid]⟩
  obtain ⟨v, hv⟩ := Option.isSome_iff_exists.mp hfindSome
  have hauth : authenticate secret now (some (.wellFormed t)) none = .ok t.payload := by
    simp [authenticate, pickToken, verifyRaw, jwtVerify, hsig, hexp]
  have hadmin : requireAdmin t.payload = none := by
    simp [requireAdmin, hrole]
  refine ⟨?_, ?_, ?_, ?_⟩ <;>
    simp [deleteUserRoute, hauth, hadmin, deleteUserCore, hv, filter_not_filter_self]

/-- Store with the admin scenario of the spec: identity g1 owning three
posts. -/
def cascadeStore : Store :=
  ⟨[⟨1, "g1", "N", "e", "", "user"⟩],
   [⟨"p1", "g1", "T1", "C1"⟩, ⟨"p2", "g1", "T2", "C2"⟩, ⟨"p3", "g1", "T3", "C3"⟩], 2⟩

theorem admin_delete_user_cascades_witness :
    (1 : Nat) < (jwtSign 5 ⟨"admin1", "a@b.com", "admin"⟩ 0).exp ∧
    (deleteUserRoute 5 1 (some (.wellFormed (jwtSign 5 ⟨"admin1", "a@b.com", "admin"⟩ 0)))
        none (some "g1") cascadeStore).1 =
      ⟨200, "User and all posts deleted successfully"⟩ := by
  refine ⟨by norm_num [jwtSign, sevenDays], ?_⟩
  exact (admin_delete_user_cascades 5 1 (jwtSign 5 ⟨"admin1", "a@b.com", "admin"⟩ 0) "g1"
    cascadeStore rfl (by norm_num [jwtSign, sevenDays]) rfl
    ⟨⟨1, "g1", "N", "e", "", "user"⟩, by simp [cascadeStore], rfl⟩).1

/-- C10: a DELETE /user by an authenticated admin for an id with no
matching identity still removes every post whose author equals that id,
leaves the users collection untouched, answers 404 User not found, and
has already issued both store deletes: the not-found error is not atomic
with respect to the posts collection. -/
theorem delete_missing_user_still_deletes_posts (secret now : Nat) (t : Jwt)
    (uid : String) (store : Store)
    (hsig : t.sig = (secret, t.payload, t.iat, t.exp))
    (hexp : now < t.exp)
    (hrole : t.payload.role = "admin")
    (hmiss : ∀ u ∈ store.users, u.googleId ≠ uid) :
    deleteUserRoute secret now (some (.wellFormed t)) none (some uid) store =
      (⟨404, "User not found"⟩,
        ⟨store.users, store.posts.filter (fun q => !(q.author == uid)),
          store.nextObjectId⟩,
        [.deletePostsByAuthor uid, .deleteUserByGoogleId uid]) := by
  have hfind : store.users.find? (fun v => v.googleId == uid) = none := by
    rw [List.find?_eq_none]
    intro u hu
    simp [hmiss u hu]
  have hauth : authenticate secret now (some (.wellFormed t)) none = .ok t.payload := by
    simp [authenticate, pickToken, verifyRaw, jwtVerify, hsig, hexp]
  have hadmin : requireAdmin t.payload = none := by
    simp [requireAdmin, hrole]
  simp [deleteUserRoute, hauth, hadmin, deleteUserCore, hfind]

/-- Store with a post by an author that has no identity record. -/
def orphanStore : Store := ⟨[], [⟨"p1", "ghost", "T", "C"⟩], 0⟩

theorem delete_missing_user_still_deletes_posts_witness :
    (1 : Nat) < (jwtSign 5 ⟨"admin1", "a@b.com", "admin"⟩ 0).exp ∧
    deleteUserRoute 5 1 (some (.wellFormed (jwtSign 5 ⟨"admin1", "a@b.com", "admin"⟩ 0)))
        none (some "ghost") orphanStore =
      (⟨404, "User not found"⟩, ⟨[], [], 0⟩,
        [.deletePostsByAuthor "ghost", .deleteUserByGoogleId "ghost"]) := by
  refine ⟨by norm_num [jwtSign, sevenDays], ?_⟩
  have h := delete_missing_user_still_deletes_posts 5 1
    (jwtSign 5 ⟨"admin1", "a@b.com", "admin"⟩ 0) "ghost" orphanStore rfl
    (by norm_num [jwtSign, sevenDays]) rfl (by simp [orphanStore])
  simpa [orphanStore] using h

end Tabloid
